import Mathlib

/-
Shallow embedding of `src/api/openstack/compute/plugins/v3/attach_interfaces.py`,
the interface-attachment API controller.

The controller delegates to two collaborator services (`compute_api`,
`network_api`) and a module-level authorization gate.  These collaborators
are modelled as an explicit environment `Env` of response functions; Python
exceptions raised by a collaborator are modelled as result constructors,
and exceptions raised by the controller itself (webob HTTP errors, the
authorization failure, the unhandled `KeyError` of `body['interface_attachment']`)
as a `Failure` type.  Every controller method returns its result together
with the ordered list of authorization / collaborator / logging calls it made,
so that ordering properties ("authorize before any collaborator call") are
statable.
-/

deriving instance DecidableEq for Except

namespace AttachInterfaces

/-- A fixed-ip record: a dictionary that may or may not carry an
`ip_address` key (`None` models a missing key). -/
structure FixedIp where
  ip_address : Option String
deriving DecidableEq, Repr

/-- The port dictionary used by the controller.  Fields `network_id`, `id`,
`mac_address`, `status` and `device_id` are accessed by direct indexing in the
source (a missing key would be an unhandled error, so they are required);
`fixed_ips` is read with `.get('fixed_ips', None)`, hence optional. -/
structure Port where
  network_id : String
  id : String
  mac_address : String
  status : String
  fixed_ips : Option (List FixedIp)
  device_id : String
deriving DecidableEq, Repr

/-- The compute instance as used here: only its `uuid` field is read. -/
structure Instance where
  uuid : String
deriving DecidableEq, Repr

/-- Result dictionary of `network_api.show_port`: `{'port': {...}}`. -/
structure ShowPortData where
  port : Port
deriving DecidableEq, Repr

/-- Result dictionary of `network_api.list_ports`; the source reads it with
`data.get('ports', [])`, so the `ports` key is optional. -/
structure ListPortsData where
  ports : Option (List Port)
deriving DecidableEq, Repr

/-- Outcome of `compute_api.attach_interface`: a port dictionary on success,
or one of the three exception kinds handled by `create`. -/
inductive AttachResult where
  | ok (port_info : Port)
  | instanceNotFound
  | notImplementedError
  | interfaceAttachFailed
deriving DecidableEq, Repr

/-- Outcome of `compute_api.detach_interface`: success, or one of the two
exception kinds handled by `delete`. -/
inductive DetachResult where
  | ok
  | portNotFound
  | notImplementedError
deriving DecidableEq, Repr

/-- Outcome of `network_api.list_ports`: the data dictionary on success, or
one of the two exception kinds handled by `_items`. -/
inductive ListPortsResult where
  | ok (data : ListPortsData)
  | notFound
  | notImplementedError
deriving DecidableEq, Repr

/-- The webob HTTP error classes raised by the controller. -/
inductive HttpError where
  | notFound
  | badRequest
  | notImplemented
  | internalServerError
deriving DecidableEq, Repr

/-- The HTTP status codes of the webob error classes
(`HTTPNotFound.code = 404`, `HTTPBadRequest.code = 400`,
`HTTPNotImplemented.code = 501`, `HTTPInternalServerError.code = 500`). -/
def HttpError.status : HttpError → Nat
  | .notFound => 404
  | .badRequest => 400
  | .notImplemented => 501
  | .internalServerError => 500

/-- Everything a controller method can terminate with other than a normal
return: a webob HTTP error it raised, the exception of the authorization
gate (not locally handled), or the unhandled `KeyError` escaping from
`body['interface_attachment']` in `create`. -/
inductive Failure where
  | http (e : HttpError)
  | unauthorized
  | keyError
deriving DecidableEq, Repr

/-- One observable call made by a controller method, in program order:
the authorization gate, the five collaborator methods, and the two logging
calls (`LOG.audit`, `LOG.exception`). -/
inductive Call where
  | authorize
  | computeGet (server_id : String)
  | showPort (port_id : String)
  | attachInterface (network_id port_id req_ip : Option String)
  | detachInterface (port_id : String)
  | listPorts (device_id : String)
  | logAudit
  | logException
deriving DecidableEq, Repr

/-- The environment: the authorization gate's verdict for this request's
context, and the behavior of each collaborator method.  `compute_get`
returns `none` when `compute_api.get` raises `InstanceNotFound`;
`show_port` returns `none` when `network_api.show_port` raises `NotFound`. -/
structure Env where
  authOk : Bool
  compute_get : String → Option Instance
  show_port : String → Option ShowPortData
  attach_interface : Instance → Option String → Option String → Option String → AttachResult
  detach_interface : Instance → String → DetachResult
  list_ports : String → ListPortsResult

/-- The interface-attachment view dictionary produced by
`_translate_interface_attachment_view`. -/
structure InterfaceAttachmentView where
  net_id : String
  port_id : String
  mac_addr : String
  port_state : String
  fixed_ips : Option (List FixedIp)
deriving DecidableEq, Repr

/-- `_translate_interface_attachment_view`: maps keys for the interface
attachment details view. -/
def _translate_interface_attachment_view (port_info : Port) : InterfaceAttachmentView :=
  { net_id := port_info.network_id
    port_id := port_info.id
    mac_addr := port_info.mac_address
    port_state := port_info.status
    fixed_ips := port_info.fixed_ips }

/-- Response body of `show` (and of `create`): `{'interface_attachment': view}`. -/
structure ShowBody where
  interface_attachment : InterfaceAttachmentView
deriving DecidableEq, Repr

/-- Response body of `index`: `{'interface_attachments': [...]}`. -/
structure IndexBody where
  interface_attachments : List InterfaceAttachmentView
deriving DecidableEq, Repr

/-- The `webob.Response(status_int=202)` value returned by `delete`:
status only, empty body. -/
structure WebobResponse where
  status_int : Nat
  body : Option String
deriving DecidableEq, Repr

/-- The `body['interface_attachment']` dictionary of a `create` request:
optional `net_id` and `port_id` keys, and an optional `fixed_ips` list. -/
structure InterfaceAttachmentBody where
  net_id : Option String
  port_id : Option String
  fixed_ips : Option (List FixedIp)
deriving DecidableEq, Repr

/-- The request body of `create`.  `none_or_empty` models a falsy body
(`None` or `{}`, for which `if body:` is skipped); `interface_attachment`
a truthy body carrying the `'interface_attachment'` key; `missing_key` a
truthy body without that key, on which `body['interface_attachment']`
raises an unhandled `KeyError`. -/
inductive Body where
  | none_or_empty
  | interface_attachment (a : InterfaceAttachmentBody)
  | missing_key
deriving DecidableEq, Repr

/-- Python truthiness of an optional string: `None` and `''` are falsy. -/
def truthy : Option String → Bool
  | none => false
  | some s => s ≠ ""

/-- The body of `create`'s permissive `try` block:
`req_ip = attachment['fixed_ips'][0]['ip_address']`, with every exception
(missing key, empty list) swallowed, leaving `req_ip = None`. -/
def extractReqIp (a : InterfaceAttachmentBody) : Option String :=
  match a.fixed_ips with
  | none => none
  | some [] => none
  | some (e :: _) => e.ip_address

/-- Parameter extraction of `create`: a falsy body leaves all three of
`network_id`, `port_id`, `req_ip` as `None`; a truthy body is indexed with
`body['interface_attachment']` (unhandled `KeyError` when absent) and then
read permissively. -/
def parseCreateBody : Body → Except Failure (Option String × Option String × Option String)
  | .none_or_empty => .ok (none, none, none)
  | .missing_key => .error .keyError
  | .interface_attachment a => .ok (a.net_id, a.port_id, extractReqIp a)

/-- `InterfaceAttachmentController.show`: authorize, resolve the instance
(404 on `InstanceNotFound`), fetch the port (404 on `NotFound`), reject a
port whose `device_id` differs from the server id (404), otherwise return
the translated view. -/
def «show» (env : Env) (server_id : String) (id : String) :
    Except Failure ShowBody × List Call :=
  if env.authOk then
    match env.compute_get server_id with
    | none => (.error (.http .notFound), [.authorize, .computeGet server_id])
    | some _ =>
      match env.show_port id with
      | none =>
          (.error (.http .notFound),
           [.authorize, .computeGet server_id, .showPort id])
      | some port_info =>
          if port_info.port.device_id ≠ server_id then
            (.error (.http .notFound),
             [.authorize, .computeGet server_id, .showPort id])
          else
            (.ok { interface_attachment :=
                     _translate_interface_attachment_view port_info.port },
             [.authorize, .computeGet server_id, .showPort id])
  else (.error .unauthorized, [.authorize])

/-- `InterfaceAttachmentController.create`: authorize, extract parameters,
validate (400 when both `network_id` and `port_id` are truthy, 400 when
`req_ip` is truthy without a truthy `network_id`), resolve the instance and
attach (404 on `InstanceNotFound`, 501 on `NotImplementedError`, 500 with
`LOG.exception` on `InterfaceAttachFailed`), then return `show` on the new
port's id. -/
def create (env : Env) (server_id : String) (body : Body) :
    Except Failure ShowBody × List Call :=
  if env.authOk then
    match parseCreateBody body with
    | .error e => (.error e, [.authorize])
    | .ok (network_id, port_id, req_ip) =>
      if truthy network_id && truthy port_id then
        (.error (.http .badRequest), [.authorize])
      else if truthy req_ip && !truthy network_id then
        (.error (.http .badRequest), [.authorize])
      else
        match env.compute_get server_id with
        | none => (.error (.http .notFound), [.authorize, .computeGet server_id])
        | some inst =>
          match env.attach_interface inst network_id port_id req_ip with
          | .instanceNotFound =>
              (.error (.http .notFound),
               [.authorize, .computeGet server_id, .logAudit,
                .attachInterface network_id port_id req_ip])
          | .notImplementedError =>
              (.error (.http .notImplemented),
               [.authorize, .computeGet server_id, .logAudit,
                .attachInterface network_id port_id req_ip])
          | .interfaceAttachFailed =>
              (.error (.http .internalServerError),
               [.authorize, .computeGet server_id, .logAudit,
                .attachInterface network_id port_id req_ip, .logException])
          | .ok port_info =>
              let s := «show» env server_id port_info.id
              (s.1,
               [.authorize, .computeGet server_id, .logAudit,
                .attachInterface network_id port_id req_ip] ++ s.2)
  else (.error .unauthorized, [.authorize])

/-- `InterfaceAttachmentController.update`: unconditionally raises
`HTTPNotImplemented`; no authorization call, no collaborator call, and the
`Empty` success type records that it can never return normally. -/
def update (_env : Env) (_server_id : String) (_id : String) (_body : Body) :
    Except Failure Empty × List Call :=
  (.error (.http .notImplemented), [])

/-- `InterfaceAttachmentController.delete`: authorize, resolve the instance
(404 on `InstanceNotFound`, with `LOG.audit` on success), detach (404 on
`PortNotFound`, 501 on `NotImplementedError`), return a 202 response with
empty body. -/
def delete (env : Env) (server_id : String) (id : String) :
    Except Failure WebobResponse × List Call :=
  if env.authOk then
    match env.compute_get server_id with
    | none => (.error (.http .notFound), [.authorize, .computeGet server_id])
    | some inst =>
      match env.detach_interface inst id with
      | .portNotFound =>
          (.error (.http .notFound),
           [.authorize, .computeGet server_id, .logAudit, .detachInterface id])
      | .notImplementedError =>
          (.error (.http .notImplemented),
           [.authorize, .computeGet server_id, .logAudit, .detachInterface id])
      | .ok =>
          (.ok { status_int := 202, body := none },
           [.authorize, .computeGet server_id, .logAudit, .detachInterface id])
  else (.error .unauthorized, [.authorize])

/-- `InterfaceAttachmentController._items`: authorize, resolve the instance
(404 on `InstanceNotFound`), list ports filtered by
`device_id = instance['uuid']` (404 on `NotFound`, 501 on
`NotImplementedError`), map each returned port through `entity_maker` in
order. -/
def _items (env : Env) (server_id : String)
    (entity_maker : Port → InterfaceAttachmentView) :
    Except Failure IndexBody × List Call :=
  if env.authOk then
    match env.compute_get server_id with
    | none => (.error (.http .notFound), [.authorize, .computeGet server_id])
    | some inst =>
      match env.list_ports inst.uuid with
      | .notFound =>
          (.error (.http .notFound),
           [.authorize, .computeGet server_id, .listPorts inst.uuid])
      | .notImplementedError =>
          (.error (.http .notImplemented),
           [.authorize, .computeGet server_id, .listPorts inst.uuid])
      | .ok data =>
          ((.ok { interface_attachments :=
                    (data.ports.getD []).map entity_maker }),
           [.authorize, .computeGet server_id, .listPorts inst.uuid])
  else (.error .unauthorized, [.authorize])

/-- `InterfaceAttachmentController.index`: `_items` with
`_translate_interface_attachment_view` as entity maker. -/
def index (env : Env) (server_id : String) :
    Except Failure IndexBody × List Call :=
  _items env server_id _translate_interface_attachment_view

/-! Concrete fixtures used to exercise the controller on closed inputs. -/

/-- A concrete compute instance. -/
def inst1 : Instance := { uuid := "uuid-1" }

/-- A concrete port attached to server `srv-1`. -/
def port1 : Port :=
  { network_id := "net-A"
    id := "p1"
    mac_address := "aa:bb:cc:dd:ee:01"
    status := "ACTIVE"
    fixed_ips := none
    device_id := "srv-1" }

/-- A concrete port attached to a different server, `srv-other`. -/
def port2 : Port :=
  { network_id := "net-B"
    id := "p2"
    mac_address := "aa:bb:cc:dd:ee:02"
    status := "ACTIVE"
    fixed_ips := some [{ ip_address := some "10.0.0.2" }]
    device_id := "srv-other" }

/-- A concrete environment: authorization granted; every server except
`srv-missing` resolves to `inst1`; ports `p1`/`p2` exist; attaching on
network `net-NI` hits `NotImplementedError`, on `net-FAIL` hits
`InterfaceAttachFailed`, on `net-INF` hits `InstanceNotFound`, anything
else succeeds with `port1`; detaching `p-missing` hits `PortNotFound`,
`p-NI` hits `NotImplementedError`; listing for `uuid-1` yields `[port1]`. -/
def demoEnv : Env :=
  { authOk := true
    compute_get := fun server_id =>
      if server_id = "srv-missing" then none else some inst1
    show_port := fun port_id =>
      if port_id = "p1" then some { port := port1 }
      else if port_id = "p2" then some { port := port2 }
      else none
    attach_interface := fun _ network_id _ _ =>
      if network_id = some "net-NI" then .notImplementedError
      else if network_id = some "net-FAIL" then .interfaceAttachFailed
      else if network_id = some "net-INF" then .instanceNotFound
      else .ok port1
    detach_interface := fun _ port_id =>
      if port_id = "p-missing" then .portNotFound
      else if port_id = "p-NI" then .notImplementedError
      else .ok
    list_ports := fun device_id =>
      if device_id = "uuid-1" then .ok { ports := some [port1] }
      else .notFound }

/-- `show` can terminate with 404 errors, an authorization failure, or a
normal result, but never raises `HTTPBadRequest`. -/
theorem show_ne_badRequest (env : Env) (server_id id : String) :
    («show» env server_id id).1 ≠ .error (.http .badRequest) := by
  unfold «show»
  repeat' split
  all_goals simp

/-- C1: for every `(serverId, portId)` such that the instance exists and the
network service returns a port for `portId` whose `device_id` differs from
the server id, `show` responds NotFound; the result is the bare 404 error,
carrying no field of the port's data. -/
theorem C1_show_foreign_port_not_found (env : Env) (server_id port_id : String)
    (i : Instance) (d : ShowPortData)
    (hauth : env.authOk = true)
    (hinst : env.compute_get server_id = some i)
    (hport : env.show_port port_id = some d)
    (hdev : d.port.device_id ≠ server_id) :
    («show» env server_id port_id).1 = .error (.http .notFound) := by
  simp [«show», hauth, hinst, hport, hdev]

/-- Witness for C1: in `demoEnv`, `show` on server `srv-1` and port `p2`
(whose `device_id` is `srv-other`) responds NotFound. -/
theorem C1_show_foreign_port_not_found_witness :
    («show» demoEnv "srv-1" "p2").1 = .error (.http .notFound) :=
  C1_show_foreign_port_not_found demoEnv "srv-1" "p2" inst1 { port := port2 }
    rfl (by decide) (by decide) (by decide)

/-- C5: for every `(serverId, portId)` where the instance exists and the
network service returns the port for `portId` with `device_id = serverId`,
`show` succeeds with a view whose `port_id` equals `portId` and whose fields
are exactly `net_id = network_id`, `port_id = id`, `mac_addr = mac_address`,
`port_state = status`, `fixed_ips = fixed_ips` (absent `fixed_ips` stays
absent, i.e. null). -/
theorem C5_show_success_view (env : Env) (server_id port_id : String)
    (i : Instance) (d : ShowPortData)
    (hauth : env.authOk = true)
    (hinst : env.compute_get server_id = some i)
    (hport : env.show_port port_id = some d)
    (hid : d.port.id = port_id)
    (hdev : d.port.device_id = server_id) :
    («show» env server_id port_id).1 = .ok
      { interface_attachment :=
        { net_id := d.port.network_id
          port_id := port_id
          mac_addr := d.port.mac_address
          port_state := d.port.status
          fixed_ips := d.port.fixed_ips } } := by
  simp [«show», hauth, hinst, hport, hdev, hid,
    _translate_interface_attachment_view]

/-- Witness for C5: in `demoEnv`, `show` on server `srv-1` and port `p1`
succeeds with the translated view of `port1`. -/
theorem C5_show_success_view_witness :
    («show» demoEnv "srv-1" "p1").1 = .ok
      { interface_attachment :=
        { net_id := "net-A"
          port_id := "p1"
          mac_addr := "aa:bb:cc:dd:ee:01"
          port_state := "ACTIVE"
          fixed_ips := none } } := by
  have h := C5_show_success_view demoEnv "srv-1" "p1" inst1 { port := port1 }
    rfl (by decide) (by decide) (by decide) (by decide)
  simpa [port1] using h

/-- C7: `update` fails with NotImplemented (status 501) on every input,
performing no authorization, collaborator, or logging call; its success type
is `Empty`, so it can never succeed. -/
theorem C7_update_always_not_implemented (env : Env) (server_id id : String)
    (b : Body) :
    (update env server_id id b).1 = .error (.http .notImplemented) ∧
    (update env server_id id b).2 = [] ∧
    HttpError.notImplemented.status = 501 :=
  ⟨rfl, rfl, rfl⟩

/-- C8: for every delete request where the instance exists, a `PortNotFound`
from the detach call maps to NotFound (404), and a successful detach returns
a 202 response with empty body. -/
theorem C8_delete_mapping (env : Env) (server_id port_id : String)
    (inst : Instance)
    (hauth : env.authOk = true)
    (hinst : env.compute_get server_id = some inst) :
    (env.detach_interface inst port_id = .portNotFound →
       (delete env server_id port_id).1 = .error (.http .notFound) ∧
       HttpError.notFound.status = 404) ∧
    (env.detach_interface inst port_id = .ok →
       (delete env server_id port_id).1 =
         .ok { status_int := 202, body := none }) := by
  constructor
  · intro h
    simp [delete, hauth, hinst, h, HttpError.status]
  · intro h
    simp [delete, hauth, hinst, h]

/-- Witness for C8: in `demoEnv`, deleting `p-missing` on `srv-1` responds
NotFound, and deleting `p1` succeeds with a 202 empty-bodied response. -/
theorem C8_delete_mapping_witness :
    (delete demoEnv "srv-1" "p-missing").1 = .error (.http .notFound) ∧
    (delete demoEnv "srv-1" "p1").1 = .ok { status_int := 202, body := none } := by
  constructor
  · exact ((C8_delete_mapping demoEnv "srv-1" "p-missing" inst1 rfl
      (by decide)).1 (by decide)).1
  · exact (C8_delete_mapping demoEnv "srv-1" "p1" inst1 rfl
      (by decide)).2 (by decide)

/-- C2 counterexample: the validation gate tests Python truthiness, not key
presence, so empty-string values slip through.  With
`fixed_ips = [{ip_address: ""}]` and no `net_id`, `create` does not respond
BadRequest (here it succeeds); and with `net_id = ""` and `port_id = "p9"`
both supplied, `create` again does not respond BadRequest. -/
theorem C2_create_empty_string_counterexample :
    (create demoEnv "srv-1" (.interface_attachment
        { net_id := none
          port_id := none
          fixed_ips := some [{ ip_address := some "" }] })).1
      ≠ .error (.http .badRequest) ∧
    (create demoEnv "srv-1" (.interface_attachment
        { net_id := some ""
          port_id := some "p9"
          fixed_ips := none })).1
      ≠ .error (.http .badRequest) := by
  exact ⟨by decide, by decide⟩

/-- C2 (amended): `create` responds BadRequest (status 400) before any
compute or network call whenever both `networkId` and `portId` are supplied
as truthy (non-empty) strings, and whenever the extracted `fixedIp` is
truthy without a truthy `networkId`; with falsy (absent or empty-string)
values the check does not fire. -/
theorem C2_create_validation_bad_request (env : Env) (server_id : String)
    (b : Body) (network_id port_id req_ip : Option String)
    (hauth : env.authOk = true)
    (hparse : parseCreateBody b = .ok (network_id, port_id, req_ip))
    (hcase : (truthy network_id = true ∧ truthy port_id = true) ∨
             (truthy req_ip = true ∧ truthy network_id = false)) :
    (create env server_id b).1 = .error (.http .badRequest) ∧
    (create env server_id b).2 = [.authorize] ∧
    HttpError.badRequest.status = 400 := by
  rcases hcase with ⟨h1, h2⟩ | ⟨h1, h2⟩ <;>
    simp [create, hauth, hparse, h1, h2, HttpError.status]

/-- Witness for the amended C2: in `demoEnv`, a body supplying truthy
`net_id` and `port_id` together yields BadRequest. -/
theorem C2_create_validation_bad_request_witness :
    (create demoEnv "srv-1" (.interface_attachment
        { net_id := some "net-A", port_id := some "p1", fixed_ips := none })).1
      = .error (.http .badRequest) :=
  (C2_create_validation_bad_request demoEnv "srv-1"
    (.interface_attachment
      { net_id := some "net-A", port_id := some "p1", fixed_ips := none })
    (some "net-A") (some "p1") none rfl rfl
    (Or.inl ⟨by decide, by decide⟩)).1

/-- C3 counterexample: `update` produces its NotImplemented response with an
empty call trace — the authorization check is never invoked — refuting the
claim that every operation authorizes before producing a response. -/
theorem C3_update_skips_authorize_counterexample :
    (update demoEnv "srv-1" "p1" Body.none_or_empty).2 = [] ∧
    (update demoEnv "srv-1" "p1" Body.none_or_empty).1
      = .error (.http .notImplemented) :=
  ⟨rfl, rfl⟩

/-- C3 (amended): for `index`, `show`, `create` and `delete`, on every
environment and input the first call of the trace is the authorization
check, so it precedes every collaborator call and the response; `update`,
by contrast, responds without invoking the authorization check (empty
trace). -/
theorem C3_authorize_first (env : Env) (server_id port_id : String) (b : Body) :
    (index env server_id).2.head? = some Call.authorize ∧
    («show» env server_id port_id).2.head? = some Call.authorize ∧
    (create env server_id b).2.head? = some Call.authorize ∧
    (delete env server_id port_id).2.head? = some Call.authorize ∧
    (update env server_id port_id b).2 = [] := by
  refine ⟨?_, ?_, ?_, ?_, rfl⟩
  · unfold index _items
    repeat' split
    all_goals rfl
  · unfold «show»
    repeat' split
    all_goals rfl
  · unfold create
    repeat' split
    all_goals rfl
  · unfold delete
    repeat' split
    all_goals rfl

/-- C4: for every create request that passes validation, an
`InstanceNotFound` (from instance lookup or from the attach call) maps to
NotFound, a `NotImplementedError` to NotImplemented, an
`InterfaceAttachFailed` to InternalServerError with the failure logged via
`LOG.exception`; and in `delete` a `NotImplementedError` from the detach
call likewise maps to NotImplemented. -/
theorem C4_create_delete_error_mapping (env : Env) (server_id port_id : String)
    (b : Body) (network_id pid req_ip : Option String) (inst : Instance)
    (hauth : env.authOk = true)
    (hparse : parseCreateBody b = .ok (network_id, pid, req_ip))
    (hv1 : (truthy network_id && truthy pid) = false)
    (hv2 : (truthy req_ip && !truthy network_id) = false) :
    (env.compute_get server_id = none →
       (create env server_id b).1 = .error (.http .notFound)) ∧
    (env.compute_get server_id = some inst →
       (env.attach_interface inst network_id pid req_ip = .instanceNotFound →
          (create env server_id b).1 = .error (.http .notFound)) ∧
       (env.attach_interface inst network_id pid req_ip = .notImplementedError →
          (create env server_id b).1 = .error (.http .notImplemented)) ∧
       (env.attach_interface inst network_id pid req_ip = .interfaceAttachFailed →
          (create env server_id b).1 = .error (.http .internalServerError) ∧
          Call.logException ∈ (create env server_id b).2)) ∧
    (env.compute_get server_id = some inst →
       env.detach_interface inst port_id = .notImplementedError →
       (delete env server_id port_id).1 = .error (.http .notImplemented)) := by
  refine ⟨?_, ?_, ?_⟩
  · intro h
    simp [create, hauth, hparse, hv1, hv2, h]
  · intro h
    refine ⟨?_, ?_, ?_⟩ <;> intro hatt <;>
      simp [create, hauth, hparse, hv1, hv2, h, hatt]
  · intro h hdet
    simp [delete, hauth, h, hdet]

/-- Witness for C4: in `demoEnv`, attaching on network `net-NI` (where the
backend raises `NotImplementedError`) yields NotImplemented. -/
theorem C4_create_delete_error_mapping_witness :
    (create demoEnv "srv-1" (.interface_attachment
        { net_id := some "net-NI", port_id := none, fixed_ips := none })).1
      = .error (.http .notImplemented) := by
  have h := C4_create_delete_error_mapping demoEnv "srv-1" "p1"
    (.interface_attachment
      { net_id := some "net-NI", port_id := none, fixed_ips := none })
    (some "net-NI") none none inst1 rfl rfl (by decide) (by decide)
  exact (h.2.1 (by decide)).2.1 (by decide)

/-- C6: for every create request that passes validation and whose attach
call succeeds with a port record, `create`'s response equals the response of
`show` on the same environment, the same server id, and the new port's id. -/
theorem C6_create_returns_show (env : Env) (server_id : String) (b : Body)
    (network_id pid req_ip : Option String) (inst : Instance)
    (port_info : Port)
    (hauth : env.authOk = true)
    (hparse : parseCreateBody b = .ok (network_id, pid, req_ip))
    (hv1 : (truthy network_id && truthy pid) = false)
    (hv2 : (truthy req_ip && !truthy network_id) = false)
    (hinst : env.compute_get server_id = some inst)
    (hatt : env.attach_interface inst network_id pid req_ip = .ok port_info) :
    (create env server_id b).1 = («show» env server_id port_info.id).1 := by
  simp [create, hauth, hparse, hv1, hv2, hinst, hatt]

/-- Witness for C6: in `demoEnv`, `create` with an empty body attaches
`port1` and responds exactly as `show` on `p1`. -/
theorem C6_create_returns_show_witness :
    (create demoEnv "srv-1" Body.none_or_empty).1
      = («show» demoEnv "srv-1" "p1").1 := by
  have h := C6_create_returns_show demoEnv "srv-1" Body.none_or_empty
    none none none inst1 port1 rfl rfl (by decide) (by decide)
    (by decide) (by decide)
  simpa [port1] using h

/-- C9: for every list request where the instance exists and the network
service answers the `device_id = instance.uuid` filter with a data
dictionary, the response's `interface_attachments` is exactly the
element-wise view translation of the returned port sequence in the same
order; in particular an empty sequence yields an empty list. -/
theorem C9_index_maps_ports_in_order (env : Env) (server_id : String)
    (inst : Instance) (data : ListPortsData)
    (hauth : env.authOk = true)
    (hinst : env.compute_get server_id = some inst)
    (hports : env.list_ports inst.uuid = .ok data) :
    (index env server_id).1 = .ok
      { interface_attachments :=
          (data.ports.getD []).map _translate_interface_attachment_view } ∧
    (data.ports = some [] →
       (index env server_id).1 = .ok { interface_attachments := [] }) := by
  have h1 : (index env server_id).1 = .ok
      { interface_attachments :=
          (data.ports.getD []).map _translate_interface_attachment_view } := by
    simp [index, _items, hauth, hinst, hports]
  refine ⟨h1, fun he => ?_⟩
  rw [h1, he]
  rfl

/-- Witness for C9: in `demoEnv`, listing for `srv-1` (whose instance uuid
is `uuid-1`, for which the network service returns `[port1]`) yields the
singleton translation of `port1`. -/
theorem C9_index_maps_ports_in_order_witness :
    (index demoEnv "srv-1").1 = .ok
      { interface_attachments :=
          [_translate_interface_attachment_view port1] } := by
  have h := C9_index_maps_ports_in_order demoEnv "srv-1" inst1
    { ports := some [port1] } rfl (by decide) (by decide)
  exact h.1

/-- C10: with a falsy (absent or empty) body, `create` raises no BadRequest
and delegates to the attach call with `network_id`, `port_id` and `req_ip`
all absent; a truthy body lacking the `interface_attachment` key instead
escapes with an unhandled `KeyError`, mapped to no HTTP status. -/
theorem C10_create_permissive_body (env : Env) (server_id : String)
    (inst : Instance)
    (hauth : env.authOk = true)
    (hinst : env.compute_get server_id = some inst) :
    (create env server_id Body.none_or_empty).1 ≠ .error (.http .badRequest) ∧
    Call.attachInterface none none none ∈
      (create env server_id Body.none_or_empty).2 ∧
    (create env server_id Body.missing_key).1 = .error .keyError := by
  cases hatt : env.attach_interface inst none none none with
  | ok p =>
      refine ⟨?_, ?_, ?_⟩
      · have hnb := show_ne_badRequest env server_id p.id
        simpa [create, hauth, hinst, hatt, parseCreateBody, truthy] using hnb
      · simp [create, hauth, hinst, hatt, parseCreateBody, truthy]
      · simp [create, hauth, parseCreateBody]
  | instanceNotFound =>
      refine ⟨?_, ?_, ?_⟩ <;>
        simp [create, hauth, hinst, hatt, parseCreateBody, truthy]
  | notImplementedError =>
      refine ⟨?_, ?_, ?_⟩ <;>
        simp [create, hauth, hinst, hatt, parseCreateBody, truthy]
  | interfaceAttachFailed =>
      refine ⟨?_, ?_, ?_⟩ <;>
        simp [create, hauth, hinst, hatt, parseCreateBody, truthy]

/-- Witness for C10: in `demoEnv`, `create` on `srv-1` with a truthy body
lacking the `interface_attachment` key escapes with the `KeyError`, while
the falsy body does not produce BadRequest. -/
theorem C10_create_permissive_body_witness :
    (create demoEnv "srv-1" Body.missing_key).1 = .error .keyError ∧
    (create demoEnv "srv-1" Body.none_or_empty).1
      ≠ .error (.http .badRequest) := by
  have h := C10_create_permissive_body demoEnv "srv-1" inst1 rfl (by decide)
  exact ⟨h.2.2, h.1⟩

end AttachInterfaces
